import Mathlib
/-!
Verification of the scrolling-capture core (`app/capture/scrolling.py`).

The program captures a scrollable window by repeatedly screenshotting it
while scrolling, then stitches the overlapping frames into one tall image.
This file gives a shallow embedding of the pure algorithmic core
(`ScrollingCapture.capture`, `_stitch_images`, `_find_overlap`,
`_images_match`) and proves the specified properties about it.

Modelling decisions:
* A PIL RGB image is modelled by `Img`: width, height and a pixel function
  returning an (r, g, b) triple of natural numbers.  `Img.crop` follows
  PIL's semantics for the boxes used by the source (out-of-range reads
  give black pixels, the cropped size is (right-left, bottom-top)).
* numpy's `np.sum(arr1 == arr2) / arr1.size >= 0.95` compares the two
  buffers channel-wise; it is embedded as exact rational arithmetic
  (`20 * matching >= 19 * size`).  For an empty buffer numpy yields
  `nan >= 0.95 = False`, embedded as the `size ≠ 0` conjunct.
* Python's `hash(img.tobytes()[:10000])` is a digest of the first 10000
  buffer bytes, used only for equality between consecutive frames; it is
  embedded as the 10000-byte prefix itself (the digest is a function of
  that prefix and nothing else, which is the property the program uses).
* The capture loop is embedded twice: a pure model (`captureLoop` /
  `capture`) in which the collaborators always succeed, and an
  exception-aware model (`captureLoopE` / `captureE`) in which the
  screenshot provider (`sct.grab`) and the scroll injector
  (`_scroll_down`) may raise; the source has no try/except, so a raised
  exception propagates (`Except.error`).
* `self.images` is the mutable frame store of the `ScrollingCapture`
  object; `capture` receives it as `images0` and returns the updated
  store together with the return value, mirroring the method acting on
  the object's state.
-/

/-- An RGB image: width, height and a row-major pixel array, modelled as a
function from (row, column) to an (r, g, b) triple. -/
structure Img where
  width : Nat
  height : Nat
  pix : Nat → Nat → Nat × Nat × Nat

/-- The all-black empty image (used only as a vacuous default). -/
def emptyImg : Img := ⟨0, 0, fun _ _ => (0, 0, 0)⟩

/-- PIL `Image.crop((l, t, r, b))`: the result has size (r-l, b-t) and
reads outside the source image give black pixels. -/
def Img.crop (img : Img) (l t r b : Nat) : Img :=
  { width := r - l
    height := b - t
    pix := fun y x =>
      if t + y < img.height ∧ l + x < img.width then img.pix (t + y) (l + x)
      else (0, 0, 0) }

/-- PIL `Image.tobytes()` for an RGB image: the row-major byte buffer,
three bytes per pixel. -/
def Img.tobytes (img : Img) : List Nat :=
  (List.range img.height).flatMap fun y =>
    (List.range img.width).flatMap fun x =>
      [(img.pix y x).1, (img.pix y x).2.1, (img.pix y x).2.2]

/-- The loop fingerprint `hash(img.tobytes()[:10000])`: a digest of the
first 10000 bytes of the frame's buffer, modelled as that prefix itself
(the program only compares digests of consecutive frames for equality). -/
def fingerprint (img : Img) : List Nat :=
  img.tobytes.take 10000

/-- Channel-wise match count of two RGB triples (numpy `arr1 == arr2`
compares each of the three channels separately). -/
def tripleMatches : Nat × Nat × Nat → Nat × Nat × Nat → Nat
  | (a1, a2, a3), (b1, b2, b3) =>
    (if a1 = b1 then 1 else 0) + (if a2 = b2 then 1 else 0) +
      (if a3 = b3 then 1 else 0)

/-- Embedding of `np.sum(arr1 == arr2)`: the number of matching channel entries over
the common extent of the two images. -/
def countMatches (a b : Img) : Nat :=
  ((List.range a.height).map fun y =>
    ((List.range a.width).map fun x =>
      tripleMatches (a.pix y x) (b.pix y x)).sum).sum

/-- Embedding of `_images_match(img1, img2, threshold=0.95)`: sizes must agree and the
fraction of matching channel entries must reach 0.95.  The fraction test
`matching / size >= 0.95` is embedded exactly as `20 * matching >= 19 *
size` with `size ≠ 0` (numpy's 0/0 is nan, and `nan >= 0.95` is false). -/
def images_match (img1 img2 : Img) : Bool :=
  if img1.width = img2.width ∧ img1.height = img2.height then
    let size := img1.height * img1.width * 3
    decide (size ≠ 0 ∧ 19 * size ≤ 20 * countMatches img1 img2)
  else false

/-- Python `range(start, stop, step)` for a positive step: the ascending
candidate list `start, start+step, ...` strictly below `stop`. -/
def rangeStep (start stop step : Nat) : List Nat :=
  (List.range ((stop - start + (step - 1)) / step)).map fun k => start + step * k

/-- The candidate overlap offsets scanned by `_find_overlap`:
`range(strip_height, max_overlap, 10)` with `strip_height = 50` and
`max_overlap = min(img1.height, img2.height) // 2`. -/
def overlapCandidates (img1 img2 : Img) : List Nat :=
  rangeStep 50 (min img1.height img2.height / 2) 10

/-- The strip comparison performed by `_find_overlap` for one candidate
offset: the sampled bottom strip of `img1` against the sampled top strip
of `img2`. -/
def overlapMatches (img1 img2 : Img) (overlap : Nat) : Bool :=
  let strip_height := 50
  let sample_x := img1.width / 2
  let sample_width := min 100 (img1.width / 4)
  let y1 := img1.height - overlap
  let strip1 := img1.crop (sample_x - sample_width / 2) y1
      (sample_x + sample_width / 2) (y1 + strip_height)
  let strip2 := img2.crop (sample_x - sample_width / 2) 0
      (sample_x + sample_width / 2) strip_height
  images_match strip1 strip2

/-- Embedding of `_find_overlap(img1, img2)`: scan the candidate offsets in ascending
order and return the first whose strips match, or 0 when none does. -/
def find_overlap (img1 img2 : Img) : Nat :=
  match (overlapCandidates img1 img2).find? (overlapMatches img1 img2) with
  | some overlap => overlap
  | none => 0

/-- One entry of `stitched_parts` for a consecutive pair: crop away the
top `overlap` rows of the current frame when an overlap was found,
otherwise keep the frame in full. -/
def contributed (prev curr : Img) : Img :=
  let overlap := find_overlap prev curr
  if 0 < overlap then curr.crop 0 overlap curr.width curr.height else curr

/-- The `stitched_parts` list built by `_stitch_images`: the first frame
in full, then each subsequent frame trimmed by its overlap with the
previous one. -/
def stitched_parts (images : List Img) : List Img :=
  match images with
  | [] => []
  | first :: rest => first :: (images.zip rest).map fun p => contributed p.1 p.2

/-- Vertical pasting of the parts into the output buffer: row `y` of the
result is read from the part containing it; pixels not covered by any
part stay black (`Image.new` initialises to black). -/
def pasteColumn : List Img → Nat → Nat → Nat × Nat × Nat
  | [], _, _ => (0, 0, 0)
  | img :: rest, y, x =>
    if y < img.height then
      (if x < img.width then img.pix y x else (0, 0, 0))
    else pasteColumn rest (y - img.height) x

/-- The multi-frame branch of `_stitch_images`: a new image of the common
width and the summed part heights, with the parts pasted top to bottom. -/
def assembleParts (images : List Img) : Img :=
  let parts := stitched_parts images
  { width := (parts.headD emptyImg).width
    height := (parts.map Img.height).sum
    pix := fun y x => pasteColumn parts y x }

/-- Embedding of `_stitch_images`: a single frame is returned unchanged, otherwise the
parts are assembled into one tall image.  (The source is only ever called
with a non-empty store; the `[]` case is a vacuous default.) -/
def stitch_images (images : List Img) : Img :=
  match images with
  | [] => emptyImg
  | [img] => img
  | a :: b :: rest => assembleParts (a :: b :: rest)

/-- A window rectangle as returned by `get_window_rect`:
(left, top, width, height). -/
structure Rect where
  left : Int
  top : Int
  width : Nat
  height : Nat
deriving DecidableEq

/-- The external world of the pure capture model: `rects k` is the
rectangle `get_window_rect` would report at its k-th query, and
`screen r k` is the frame `sct.grab` returns for region `r` at loop
iteration `k`.  Collaborators never fail in this model. -/
structure Env where
  rects : Nat → Rect
  screen : Rect → Nat → Img

/-- The capture loop of `ScrollingCapture.capture` (pure model).  `fuel`
is the remaining iteration budget (`max_scrolls - scroll_count`), `iter`
the current iteration index, `previous_hash` the fingerprint remembered
from the previous iteration (`None` initially) and `images` the store
`self.images`.  Each iteration grabs a frame, compares fingerprints,
stops on a duplicate (discarding it) and otherwise appends the frame and
scrolls on. -/
def captureLoop (frames : Nat → Img) :
    Nat → Nat → Option (List Nat) → List Img → List Img
  | 0, _, _, images => images
  | fuel + 1, iter, previous_hash, images =>
    let img := frames iter
    let current_hash := fingerprint img
    if previous_hash = some current_hash then images
    else captureLoop frames fuel (iter + 1) (some current_hash) (images ++ [img])

/-- Embedding of `ScrollingCapture.capture(max_scrolls)` (pure model), acting on the
object's frame store `images0` (`self.images`).  The window rectangle is
read once, before the loop, and the same cached region is used for every
grab.  Returns the updated store together with the returned image
(`None` when the store is empty). -/
def capture (env : Env) (max_scrolls : Nat) (images0 : List Img) :
    List Img × Option Img :=
  let rect := env.rects 0
  let images := captureLoop (fun k => env.screen rect k) max_scrolls 0 none images0
  if images.isEmpty then (images, none) else (images, some (stitch_images images))

/-- The external world of the exception-aware capture model: `grab` and
`scroll_down` may raise (`Except.error`), as `sct.grab` and the key
injection can in the source. -/
structure EnvE where
  rects : Nat → Rect
  grab : Rect → Nat → Except String Img
  scroll_down : Nat → Except String Unit

/-- The capture loop with failing collaborators.  The source body has no
try/except, so an exception raised by the screenshot provider or the
scroll injector propagates out of the loop. -/
def captureLoopE (grab : Nat → Except String Img)
    (scroll : Nat → Except String Unit) :
    Nat → Nat → Option (List Nat) → List Img → Except String (List Img)
  | 0, _, _, images => .ok images
  | fuel + 1, iter, previous_hash, images =>
    match grab iter with
    | .error e => .error e
    | .ok img =>
      let current_hash := fingerprint img
      if previous_hash = some current_hash then .ok images
      else
        match scroll iter with
        | .error e => .error e
        | .ok _ =>
          captureLoopE grab scroll fuel (iter + 1) (some current_hash)
            (images ++ [img])

/-- Embedding of `ScrollingCapture.capture` with failing collaborators: an exception
escaping the loop propagates to the caller; otherwise the store decides
between the empty result and the stitched image. -/
def captureE (env : EnvE) (max_scrolls : Nat) (images0 : List Img) :
    Except String (Option Img) :=
  let rect := env.rects 0
  match captureLoopE (fun k => env.grab rect k) env.scroll_down
      max_scrolls 0 none images0 with
  | .error e => .error e
  | .ok images =>
    .ok (if images.isEmpty then none else some (stitch_images images))

/-- A concrete equal-width pair for the C5 witness. -/
def c5a : Img := ⟨8, 6, fun y x => (y, x, 0)⟩

/-- The second frame of the C5 witness pair. -/
def c5b : Img := ⟨8, 6, fun y x => (y + 1, x, 0)⟩

/-- Concrete short frames for the C10 witness. -/
def c10a : Img := ⟨5, 40, fun y x => (y, x, 1)⟩

/-- The second short frame of the C10 witness. -/
def c10b : Img := ⟨5, 60, fun y x => (y, x, 2)⟩

/-- The rectangle the C4 environment reports before the loop starts. -/
def c4rect0 : Rect := ⟨0, 0, 4, 4⟩

/-- The rectangle the C4 environment reports from the first in-loop
iteration on (the host has moved the window). -/
def c4rect1 : Rect := ⟨100, 100, 4, 4⟩

/-- Content of the original rectangle at iteration `k`. -/
def c4imgA (k : Nat) : Img := ⟨1, 1, fun _ _ => (k, 0, 0)⟩

/-- Content of the moved rectangle at iteration `k`. -/
def c4imgB (k : Nat) : Img := ⟨1, 1, fun _ _ => (k, 1, 1)⟩

/-- A world in which the window's rectangle changes after the 0-th rect
query, and the two rectangles show different content. -/
def c4env : Env :=
  { rects := fun q => if q = 0 then c4rect0 else c4rect1
    screen := fun r k => if r = c4rect0 then c4imgA k else c4imgB k }

/-- A concrete frame for the C8 witness. -/
def c8w : Img := ⟨1, 1, fun _ _ => (5, 5, 5)⟩

/-- A 2×2 frame for the C3 scenario. -/
def c3img : Img := ⟨2, 2, fun y x => (y, x, 3)⟩

/-- A world in which the first grab succeeds and the second grab raises:
one frame is collected before the exception. -/
def c3env : EnvE :=
  { rects := fun _ => ⟨0, 0, 2, 2⟩
    grab := fun _ k => if k = 0 then .ok c3img else .error "grab failed"
    scroll_down := fun _ => .ok () }

/-- A stable frame for the C9 witness world. -/
def c9img : Img := ⟨1, 2, fun y _ => (y, 9, 9)⟩

/-- A world whose collaborators never fail and always show `c9img`. -/
def c9env : EnvE :=
  { rects := fun _ => ⟨0, 0, 1, 2⟩
    grab := fun _ _ => .ok c9img
    scroll_down := fun _ => .ok () }

/-- The stable 10×20 frame the first capture call sees. -/
def c6fA : Img := ⟨10, 20, fun _ _ => (1, 2, 3)⟩

/-- The stable 10×30 frame the second capture call sees. -/
def c6fB : Img := ⟨10, 30, fun _ _ => (4, 5, 6)⟩

/-- The world during the first capture call. -/
def c6envA : Env :=
  { rects := fun _ => ⟨0, 0, 10, 20⟩, screen := fun _ _ => c6fA }

/-- The world during the second capture call (the screen now shows
different content). -/
def c6envB : Env :=
  { rects := fun _ => ⟨0, 0, 10, 30⟩, screen := fun _ _ => c6fB }

/-- Frame 1 of the spec's concrete scenario: 100×300, row y carrying the
byte y mod 256 in every channel (distinct consecutive rows). -/
def c2f1 : Img := ⟨100, 300, fun y _ => (y % 256, y % 256, y % 256)⟩

/-- Frame 2 of the scenario: frame 1 shifted up by 80 rows — row y shows
frame 1's row y + 80 for y < 220 — with fresh content underneath.  (A
shift by 80 in a 300-row frame exposes 80 new bottom rows; the scenario's
"20 new rows" cannot fill the frame, but no strip the Overlap Locator
samples and no byte the fingerprint reads lies in the new region, so the
choice of bottom content is immaterial.)  Frame 3 of the scenario equals
frame 2. -/
def c2f2 : Img := ⟨100, 300, fun y _ =>
  if y < 220 then ((y + 80) % 256, (y + 80) % 256, (y + 80) % 256)
  else ((y + 17) % 251, (y + 17) % 251, (y + 17) % 251)⟩

/-- The frame stream of the scenario: frame 1, then frame 2 forever
(frame 3 = frame 2 simulates end of content). -/
def c2frames : Nat → Img := fun k => if k = 0 then c2f1 else c2f2

/-- The scenario as a capture world. -/
def c2env : Env :=
  { rects := fun _ => ⟨0, 0, 100, 300⟩, screen := fun _ k => c2frames k }

/-- Single-step unfolding of the pure capture loop. -/
theorem captureLoop_succ (frames : Nat → Img) (fuel iter : Nat)
    (previous_hash : Option (List Nat)) (images : List Img) :
    captureLoop frames (fuel + 1) iter previous_hash images =
      if previous_hash = some (fingerprint (frames iter)) then images
      else captureLoop frames fuel (iter + 1)
        (some (fingerprint (frames iter))) (images ++ [frames iter]) := rfl

/-- Characterization of the pure capture loop: it appends some count `m ≤
fuel` of consecutive frames (starting at `iter`) to the store; the first
appended frame's fingerprint differs from the incoming hash, and any two
consecutively appended frames have distinct fingerprints (a duplicate
stops the loop before being appended). -/
theorem captureLoop_shape (frames : Nat → Img) :
    ∀ (fuel iter : Nat) (ph : Option (List Nat)) (images : List Img),
      ∃ m, m ≤ fuel ∧
        captureLoop frames fuel iter ph images =
          images ++ (List.range m).map (fun j => frames (iter + j)) ∧
        (0 < m → ph ≠ some (fingerprint (frames iter))) ∧
        (∀ j, j + 1 < m →
          fingerprint (frames (iter + j)) ≠ fingerprint (frames (iter + j + 1))) := by
  intro fuel
  induction fuel with
  | zero =>
    intro iter ph images
    exact ⟨0, Nat.le_refl 0, by simp [captureLoop], by omega, by omega⟩
  | succ fuel ih =>
    intro iter ph images
    by_cases h : ph = some (fingerprint (frames iter))
    · refine ⟨0, Nat.zero_le _, ?_, by omega, by omega⟩
      rw [captureLoop_succ, if_pos h]
      simp
    · obtain ⟨m, hm, heq, hfirst, hadj⟩ :=
        ih (iter + 1) (some (fingerprint (frames iter))) (images ++ [frames iter])
      refine ⟨m + 1, by omega, ?_, fun _ => h, ?_⟩
      · rw [captureLoop_succ, if_neg h, heq, List.append_assoc]
        congr 1
        rw [List.range_succ_eq_map]
        simp only [List.map_cons, List.map_map, List.singleton_append,
          Nat.add_zero, List.cons.injEq, true_and]
        apply List.map_congr_left
        intro j _
        simp only [Function.comp_apply]
        congr 1
        omega
      · intro j hj
        match j with
        | 0 =>
          have h1 := hfirst (by omega)
          simp only [Nat.add_zero]
          intro hcontra
          exact h1 (by rw [hcontra])
        | k + 1 =>
          have h2 := hadj k (by omega)
          have e1 : iter + 1 + k = iter + (k + 1) := by omega
          rw [e1] at h2
          exact h2

/-- The store contents never influence the loop's control flow: the
number of frames the loop appends is independent of the store it starts
from. -/
theorem captureLoop_length (frames : Nat → Img) :
    ∀ (fuel iter : Nat) (ph : Option (List Nat)) (images : List Img),
      (captureLoop frames fuel iter ph images).length =
        images.length + (captureLoop frames fuel iter ph []).length := by
  intro fuel
  induction fuel with
  | zero => intro iter ph images; simp [captureLoop]
  | succ fuel ih =>
    intro iter ph images
    rw [captureLoop_succ, captureLoop_succ]
    by_cases h : ph = some (fingerprint (frames iter))
    · rw [if_pos h, if_pos h]; simp
    · rw [if_neg h, if_neg h, ih _ _ (images ++ [frames iter]),
        ih _ _ ([] ++ [frames iter])]
      simp
      omega

/-- A successful run of the exception-aware loop only ever appends to the
store it was given. -/
theorem captureLoopE_ok_shape (grab : Nat → Except String Img)
    (scroll : Nat → Except String Unit) :
    ∀ (fuel iter : Nat) (ph : Option (List Nat)) (images s : List Img),
      captureLoopE grab scroll fuel iter ph images = .ok s →
      ∃ t, s = images ++ t := by
  intro fuel
  induction fuel with
  | zero =>
    intro iter ph images s h
    simp only [captureLoopE, Except.ok.injEq] at h
    exact ⟨[], by simp [h]⟩
  | succ fuel ih =>
    intro iter ph images s h
    simp only [captureLoopE] at h
    split at h
    · exact absurd h (by simp)
    · rename_i img hg
      split at h
      · simp only [Except.ok.injEq] at h
        exact ⟨[], by simp [h]⟩
      · split at h
        · exact absurd h (by simp)
        · obtain ⟨t, ht⟩ := ih _ _ _ _ h
          exact ⟨img :: t, by simp [ht]⟩

/-- An error escaping the exception-aware loop originates in one of the
collaborator calls made during the run. -/
theorem captureLoopE_error_origin (grab : Nat → Except String Img)
    (scroll : Nat → Except String Unit) :
    ∀ (fuel iter : Nat) (ph : Option (List Nat)) (images : List Img)
      (e : String),
      captureLoopE grab scroll fuel iter ph images = .error e →
      ∃ k, iter ≤ k ∧ k < iter + fuel ∧
        (grab k = .error e ∨ scroll k = .error e) := by
  intro fuel
  induction fuel with
  | zero =>
    intro iter ph images e h
    exact absurd h (by simp [captureLoopE])
  | succ fuel ih =>
    intro iter ph images e h
    simp only [captureLoopE] at h
    split at h
    · rename_i e' hg
      simp only [Except.error.injEq] at h
      exact ⟨iter, Nat.le_refl _, by omega, Or.inl (by rw [hg, h])⟩
    · rename_i img hg
      split at h
      · exact absurd h (by simp)
      · split at h
        · rename_i e' hs
          simp only [Except.error.injEq] at h
          exact ⟨iter, Nat.le_refl _, by omega, Or.inr (by rw [hs, h])⟩
        · obtain ⟨k, hk1, hk2, hk3⟩ := ih _ _ _ _ h
          exact ⟨k, by omega, by omega, hk3⟩

/-- The height of a trimmed part: the frame's height minus its overlap
with the previous frame (also when the overlap is 0 and the frame is
kept whole). -/
theorem contributed_height (prev curr : Img) :
    (contributed prev curr).height = curr.height - find_overlap prev curr := by
  unfold contributed
  by_cases h : 0 < find_overlap prev curr
  · rw [if_pos h]; rfl
  · rw [if_neg h]
    omega

/-- Height of the stitched output of a non-empty store: the first
frame's height plus, for every consecutive pair, the second frame's
height minus the overlap the locator returned for that pair. -/
theorem stitch_images_height (a : Img) (rest : List Img) :
    (stitch_images (a :: rest)).height =
      a.height +
        (((a :: rest).zip rest).map fun p =>
          p.2.height - find_overlap p.1 p.2).sum := by
  cases rest with
  | nil => simp [stitch_images]
  | cons b rest =>
    show (assembleParts (a :: b :: rest)).height = _
    simp only [assembleParts, stitched_parts, List.map_cons, List.sum_cons,
      List.map_map]
    congr 1
    apply congrArg List.sum
    apply List.map_congr_left
    intro p _
    exact contributed_height p.1 p.2

/-- Every candidate offset has the form `50 + 10k` and lies strictly
below the scan bound. -/
theorem mem_rangeStep50 {stop o : Nat} (h : o ∈ rangeStep 50 stop 10) :
    ∃ k, o = 50 + 10 * k ∧ 50 ≤ o ∧ o < stop := by
  simp only [rangeStep, List.mem_map, List.mem_range] at h
  obtain ⟨k, hk, rfl⟩ := h
  refine ⟨k, rfl, by omega, ?_⟩
  have h1 : (stop - 50 + 9) / 10 * 10 ≤ stop - 50 + 9 := Nat.div_mul_le_self _ _
  omega

/-- When the scan bound does not exceed the strip height the candidate
list is empty. -/
theorem rangeStep50_empty {stop : Nat} (h : stop ≤ 50) :
    rangeStep 50 stop 10 = [] := by
  have h0 : stop - 50 = 0 := by omega
  simp [rangeStep, h0]

/-- The candidate list is strictly ascending. -/
theorem rangeStep50_sorted (stop : Nat) :
    (rangeStep 50 stop 10).Pairwise (· < ·) :=
  List.Pairwise.map _ (fun a b hab => by omega) (List.pairwise_lt_range _)

/-- Running `find?` on a strictly ascending list returns the least element
satisfying the predicate. -/
theorem find?_min_of_sorted {p : Nat → Bool} {a : Nat} :
    ∀ {l : List Nat}, l.Pairwise (· < ·) → l.find? p = some a →
      ∀ b ∈ l, p b = true → a ≤ b := by
  intro l
  induction l with
  | nil => intro _ h; exact absurd h (by simp)
  | cons x xs ih =>
    intro hp hf b hb hpb
    by_cases hx : p x
    · rw [List.find?_cons_of_pos _ hx] at hf
      obtain rfl : x = a := by simpa using hf
      rcases List.mem_cons.mp hb with rfl | hmem
      · exact Nat.le_refl _
      · exact Nat.le_of_lt ((List.pairwise_cons.mp hp).1 b hmem)
    · rw [List.find?_cons_of_neg _ hx] at hf
      rcases List.mem_cons.mp hb with rfl | hmem
      · exact absurd hpb (by simpa using hx)
      · exact ih (List.pairwise_cons.mp hp).2 hf b hmem hpb

/-- Claim C1.  Height invariant of the Stitcher: for every non-empty
frame sequence, the stitched image's height equals the first frame's
height plus, for each subsequent frame, that frame's height minus the
overlap the Overlap Locator returned for the pair with its predecessor
(0 standing for "no overlap found"). -/
theorem claim_C1_height_invariant (a : Img) (rest : List Img) :
    (stitch_images (a :: rest)).height =
      a.height +
        (((a :: rest).zip rest).map fun p =>
          p.2.height - find_overlap p.1 p.2).sum :=
  stitch_images_height a rest

/-- Claim C7.  Stitching a one-frame sequence returns that frame
unchanged: the very same image, hence the same width, the same height
and a byte-identical pixel buffer. -/
theorem claim_C7_single_frame (f : Img) :
    stitch_images [f] = f ∧ (stitch_images [f]).width = f.width ∧
      (stitch_images [f]).height = f.height ∧
      (stitch_images [f]).tobytes = f.tobytes :=
  ⟨rfl, rfl, rfl, rfl⟩

/-- Claim C5.  For a pair of equal-width frames, `_find_overlap` either
reports "not found" (encoded as 0) or returns an offset of the form
`50 + 10k` with `50 ≤ o < min(h1, h2) / 2` — in particular every found
offset lies in `[0, floor(min(h1, h2) / 2))` — and the returned offset is
the smallest candidate of the ascending scan whose sampled strips meet
the 0.95 similarity threshold. -/
theorem claim_C5_overlap_range (img1 img2 : Img)
    (_hw : img1.width = img2.width) :
    find_overlap img1 img2 = 0 ∨
      ((∃ k, find_overlap img1 img2 = 50 + 10 * k) ∧
        50 ≤ find_overlap img1 img2 ∧
        find_overlap img1 img2 < min img1.height img2.height / 2 ∧
        overlapMatches img1 img2 (find_overlap img1 img2) = true ∧
        ∀ o ∈ overlapCandidates img1 img2,
          overlapMatches img1 img2 o = true → find_overlap img1 img2 ≤ o) := by
  clear _hw
  unfold find_overlap
  cases hf : (overlapCandidates img1 img2).find? (overlapMatches img1 img2) with
  | none => exact Or.inl rfl
  | some o =>
    right
    have hmem : o ∈ overlapCandidates img1 img2 := List.mem_of_find?_eq_some hf
    obtain ⟨k, hk, h50, hlt⟩ := mem_rangeStep50 hmem
    refine ⟨⟨k, hk⟩, h50, hlt, List.find?_some hf, ?_⟩
    intro o' hmem' hmatch
    exact find?_min_of_sorted (rangeStep50_sorted _) hf o' hmem' hmatch

/-- Witness for claim C5 at a concrete pair of equal-width frames. -/
theorem claim_C5_overlap_range_witness :
    find_overlap c5a c5b = 0 ∨
      ((∃ k, find_overlap c5a c5b = 50 + 10 * k) ∧
        50 ≤ find_overlap c5a c5b ∧
        find_overlap c5a c5b < min c5a.height c5b.height / 2 ∧
        overlapMatches c5a c5b (find_overlap c5a c5b) = true ∧
        ∀ o ∈ overlapCandidates c5a c5b,
          overlapMatches c5a c5b o = true → find_overlap c5a c5b ≤ o) :=
  claim_C5_overlap_range c5a c5b rfl

/-- Claim C10.  When the smaller of the two heights is at most 101
pixels the candidate range of the overlap scan is empty, so
`_find_overlap` returns 0; consequently a frame sequence all of whose
adjacent pairs are that short is concatenated in full, the stitched
height being the plain sum of the frame heights. -/
theorem claim_C10_short_frames :
    (∀ img1 img2 : Img, min img1.height img2.height ≤ 101 →
      find_overlap img1 img2 = 0) ∧
    (∀ (a : Img) (rest : List Img),
      (∀ p ∈ (a :: rest).zip rest, min p.1.height p.2.height ≤ 101) →
      (stitch_images (a :: rest)).height = ((a :: rest).map Img.height).sum) := by
  have hzero : ∀ img1 img2 : Img, min img1.height img2.height ≤ 101 →
      find_overlap img1 img2 = 0 := by
    intro img1 img2 h
    unfold find_overlap overlapCandidates
    rw [rangeStep50_empty (by omega)]
    rfl
  refine ⟨hzero, ?_⟩
  intro a rest hpairs
  rw [stitch_images_height]
  have hmap : (((a :: rest).zip rest).map fun p =>
      p.2.height - find_overlap p.1 p.2) = ((a :: rest).zip rest).map
        fun p => p.2.height := by
    apply List.map_congr_left
    intro p hp
    rw [hzero p.1 p.2 (hpairs p hp)]
    exact Nat.sub_zero _
  rw [hmap]
  have hsnd : (((a :: rest).zip rest).map fun p => p.2.height) =
      rest.map Img.height := by
    have h1 : (((a :: rest).zip rest).map fun p => p.2.height) =
        (((a :: rest).zip rest).map Prod.snd).map Img.height := by
      rw [List.map_map]; rfl
    rw [h1, List.map_snd_zip]
    simp
  rw [hsnd, List.map_cons, List.sum_cons]

/-- Witness for claim C10 at concrete short frames: the locator reports
no overlap and the two frames are stitched at their full summed height. -/
theorem claim_C10_short_frames_witness :
    find_overlap c10a c10b = 0 ∧
      (stitch_images [c10a, c10b]).height = ([c10a, c10b].map Img.height).sum :=
  ⟨claim_C10_short_frames.1 c10a c10b (by decide),
    claim_C10_short_frames.2 c10a [c10b] (by
      intro p hp
      simp only [List.zip_cons_cons, List.zip_nil_right, List.mem_singleton] at hp
      subst hp
      decide)⟩

/-- The first component of `capture` is the updated store, whatever the
empty-store branch decides. -/
theorem capture_fst (env : Env) (max_scrolls : Nat) (images0 : List Img) :
    (capture env max_scrolls images0).1 =
      captureLoop (fun k => env.screen (env.rects 0) k)
        max_scrolls 0 none images0 := by
  unfold capture
  dsimp only
  split <;> rfl

/-- Evaluation of `capture` through a known value of its loop. -/
theorem capture_eq_of_loop (env : Env) (max_scrolls : Nat)
    (images0 s : List Img)
    (h : captureLoop (fun k => env.screen (env.rects 0) k)
      max_scrolls 0 none images0 = s) :
    capture env max_scrolls images0 =
      if s.isEmpty then (s, none) else (s, some (stitch_images s)) := by
  unfold capture
  dsimp only
  rw [h]

/-- Claim C4 counterexample: in the world `c4env` the rect query at
iteration 1 reports the moved rectangle, but the frame the loop stores at
iteration 1 is the content of the pre-loop rectangle, not of the
rectangle reported at iteration 1. -/
theorem claim_C4_counterexample :
    (capture c4env 2 []).1.get? 1 = some (c4imgA 1) ∧
      c4imgA 1 ≠ c4env.screen (c4env.rects 1) 1 := by
  refine ⟨rfl, ?_⟩
  intro h
  exact absurd (congrArg (fun i => (i.pix 0 0).2.1) h) (by decide)

/-- Claim C4 amended: the controller queries the rectangle once, before
the loop; every frame it stores covers that single pre-loop rectangle
(`rects 0`), the k-th stored frame being the screen content of that
rectangle at iteration k. -/
theorem claim_C4_amended (env : Env) (max_scrolls : Nat)
    (images0 : List Img) :
    ∃ m, (capture env max_scrolls images0).1 =
      images0 ++ (List.range m).map fun k => env.screen (env.rects 0) k := by
  obtain ⟨m, _, heq, _, _⟩ :=
    captureLoop_shape (fun k => env.screen (env.rects 0) k)
      max_scrolls 0 none images0
  refine ⟨m, ?_⟩
  rw [capture_fst, heq]
  simp

/-- Claim C8.  The duplicate/stop decision depends only on the first
10000 bytes of each frame's buffer: (1) the fingerprint is a function of
that prefix alone; (2) whenever two consecutive captures agree on the
prefix the loop stops there and discards the second, so at most k+1
frames are ever stored; (3) noninterference: two worlds whose frames
agree on all prefixes produce identical continue/stop behaviour (the
same number of stored frames), however the buffers differ past byte
10000. -/
theorem claim_C8_prefix_decision :
    (∀ a b : Img, a.tobytes.take 10000 = b.tobytes.take 10000 →
      fingerprint a = fingerprint b) ∧
    (∀ (frames : Nat → Img) (fuel k : Nat),
      fingerprint (frames (k + 1)) = fingerprint (frames k) →
      (captureLoop frames fuel 0 none []).length ≤ k + 1) ∧
    (∀ f g : Nat → Img,
      (∀ j, (f j).tobytes.take 10000 = (g j).tobytes.take 10000) →
      ∀ (fuel iter : Nat) (ph : Option (List Nat)) (images : List Img),
        (captureLoop f fuel iter ph images).length =
          (captureLoop g fuel iter ph images).length) := by
  refine ⟨fun a b h => h, ?_, ?_⟩
  · intro frames fuel k h
    obtain ⟨m, hm, heq, hfirst, hadj⟩ := captureLoop_shape frames fuel 0 none []
    rw [heq]
    simp only [List.nil_append, List.length_map, List.length_range]
    by_contra hgt
    push_neg at hgt
    have hne := hadj k (by omega)
    simp only [Nat.zero_add] at hne
    exact hne h.symm
  · intro f g hpre fuel
    induction fuel with
    | zero => intro iter ph images; rfl
    | succ fuel ih =>
      intro iter ph images
      rw [captureLoop_succ, captureLoop_succ]
      have hfp : fingerprint (f iter) = fingerprint (g iter) := hpre iter
      rw [hfp]
      by_cases h : ph = some (fingerprint (g iter))
      · rw [if_pos h, if_pos h]
      · rw [if_neg h, if_neg h,
          captureLoop_length f fuel (iter + 1) _ (images ++ [f iter]),
          captureLoop_length g fuel (iter + 1) _ (images ++ [g iter]),
          ih (iter + 1) (some (fingerprint (g iter))) []]
        simp

/-- Witness for claim C8 at a concrete constant world: the fingerprint
property, the stop bound and the noninterference conclusion, all at
`c8w`. -/
theorem claim_C8_prefix_decision_witness :
    fingerprint c8w = fingerprint c8w ∧
      (captureLoop (fun _ => c8w) 3 0 none []).length ≤ 1 ∧
      (captureLoop (fun _ => c8w) 3 0 none []).length =
        (captureLoop (fun _ => c8w) 3 0 none []).length :=
  ⟨claim_C8_prefix_decision.1 c8w c8w rfl,
    claim_C8_prefix_decision.2.1 (fun _ => c8w) 3 0 rfl,
    claim_C8_prefix_decision.2.2 (fun _ => c8w) (fun _ => c8w)
      (fun _ => rfl) 3 0 none []⟩

/-- Single-step unfolding of the exception-aware capture loop. -/
theorem captureLoopE_succ (grab : Nat → Except String Img)
    (scroll : Nat → Except String Unit) (fuel iter : Nat)
    (ph : Option (List Nat)) (images : List Img) :
    captureLoopE grab scroll (fuel + 1) iter ph images =
      match grab iter with
      | .error e => .error e
      | .ok img =>
        if ph = some (fingerprint img) then .ok images
        else
          match scroll iter with
          | .error e => .error e
          | .ok _ =>
            captureLoopE grab scroll fuel (iter + 1)
              (some (fingerprint img)) (images ++ [img]) := rfl

/-- Unfolding of `captureE` through its loop. -/
theorem captureE_def (env : EnvE) (max_scrolls : Nat) (images0 : List Img) :
    captureE env max_scrolls images0 =
      match captureLoopE (fun k => env.grab (env.rects 0) k) env.scroll_down
          max_scrolls 0 none images0 with
      | .error e => .error e
      | .ok images =>
        .ok (if images.isEmpty then none else some (stitch_images images)) := rfl

/-- An error returned by `captureE` is the error its loop stopped with. -/
theorem captureE_error (env : EnvE) (max_scrolls : Nat) (images0 : List Img)
    (e : String) (h : captureE env max_scrolls images0 = .error e) :
    captureLoopE (fun k => env.grab (env.rects 0) k) env.scroll_down
      max_scrolls 0 none images0 = .error e := by
  rw [captureE_def] at h
  split at h
  · rename_i e' hl
    simp only [Except.error.injEq] at h
    rw [hl, h]
  · exact absurd h (by simp)

/-- Claim C3 counterexample: in the world `c3env` a frame is collected on
the first iteration and the screenshot provider raises on the second; the
claim says `capture` still returns the stitch of the collected frames,
but the code propagates the exception and returns no image at all. -/
theorem claim_C3_counterexample :
    captureE c3env 50 [] = .error "grab failed" ∧
      ∀ r : Option Img, captureE c3env 50 [] ≠ .ok r := by
  have h1 : captureE c3env 50 [] = .error "grab failed" := rfl
  exact ⟨h1, fun r h => by rw [h1] at h; exact Except.noConfusion h⟩

/-- Claim C3 amended: an exception raised by the screenshot provider or
the scroll injector during the loop propagates to the caller as the
failure of the whole capture call — the error returned is one a
collaborator raised at some reached iteration, and no image (partial or
not) is returned by that call. -/
theorem claim_C3_amended (env : EnvE) (max_scrolls : Nat) (e : String)
    (h : captureE env max_scrolls [] = .error e) :
    (∃ k, k < max_scrolls ∧
      (env.grab (env.rects 0) k = .error e ∨ env.scroll_down k = .error e)) ∧
    ∀ r : Option Img, captureE env max_scrolls [] ≠ .ok r := by
  refine ⟨?_, fun r hr => by rw [h] at hr; exact Except.noConfusion hr⟩
  obtain ⟨k, hk1, hk2, hk3⟩ :=
    captureLoopE_error_origin (fun k => env.grab (env.rects 0) k)
      env.scroll_down max_scrolls 0 none [] e
      (captureE_error env max_scrolls [] e h)
  exact ⟨k, by omega, hk3⟩

/-- Witness for the amended claim C3 at the concrete world `c3env`. -/
theorem claim_C3_amended_witness :
    (∃ k, k < 50 ∧
      (c3env.grab (c3env.rects 0) k = .error "grab failed" ∨
        c3env.scroll_down k = .error "grab failed")) ∧
    ∀ r : Option Img, captureE c3env 50 [] ≠ .ok r :=
  claim_C3_amended c3env 50 "grab failed" (by rfl)

/-- Claim C9.  The initial fingerprint sentinel (`None`) never equals a
frame's fingerprint, so when the iteration budget is at least 1 and the
first grab returns normally, the first captured frame is always appended
to the store: the loop's result, when it returns at all, is a non-empty
store headed by that frame, and `capture` never takes the empty-store
branch (it never returns the explicit empty result). -/
theorem claim_C9_first_frame_stored (env : EnvE) (max_scrolls : Nat)
    (f0 : Img) (hmax : 1 ≤ max_scrolls)
    (h0 : env.grab (env.rects 0) 0 = .ok f0) :
    captureE env max_scrolls [] ≠ .ok none ∧
    ∀ images, captureLoopE (fun k => env.grab (env.rects 0) k)
        env.scroll_down max_scrolls 0 none [] = .ok images →
      images.head? = some f0 := by
  obtain ⟨m, rfl⟩ : ∃ m, max_scrolls = m + 1 :=
    ⟨max_scrolls - 1, by omega⟩
  have hstep : captureLoopE (fun k => env.grab (env.rects 0) k)
      env.scroll_down (m + 1) 0 none [] =
        match env.scroll_down 0 with
        | .error e => .error e
        | .ok _ =>
          captureLoopE (fun k => env.grab (env.rects 0) k) env.scroll_down
            m 1 (some (fingerprint f0)) [f0] := by
    rw [captureLoopE_succ]
    simp only [h0]
    rw [if_neg (by simp)]
    rfl
  constructor
  · rw [captureE_def, hstep]
    cases hs : env.scroll_down 0 with
    | error e => simp
    | ok u =>
      cases hl : captureLoopE (fun k => env.grab (env.rects 0) k)
          env.scroll_down m 1 (some (fingerprint f0)) [f0] with
      | error e => simp [hl]
      | ok s =>
        obtain ⟨t, rfl⟩ := captureLoopE_ok_shape _ _ _ _ _ _ _ hl
        simp [hl]
  · intro images h
    rw [hstep] at h
    cases hs : env.scroll_down 0 with
    | error e =>
      rw [hs] at h
      exact absurd h (by simp)
    | ok u =>
      rw [hs] at h
      obtain ⟨t, rfl⟩ := captureLoopE_ok_shape _ _ _ _ _ _ _ h
      rfl

/-- Witness for claim C9 at the concrete world `c9env`. -/
theorem claim_C9_first_frame_stored_witness :
    captureE c9env 50 [] ≠ .ok none ∧
    ∀ images, captureLoopE (fun k => c9env.grab (c9env.rects 0) k)
        c9env.scroll_down 50 0 none [] = .ok images →
      images.head? = some c9img :=
  claim_C9_first_frame_stored c9env 50 c9img (by omega) rfl

set_option maxRecDepth 100000 in

/-- Claim C6 evaluated on the code: `self.images` is never cleared, so a
second `capture()` call on the same object starts from the store the
first call left behind ([c6fA], not []), and its output stitches the
first call's frame together with its own — a 50-row image instead of the
30 rows of the second call's own content. -/
theorem claim_C6_store_persists :
    (capture c6envA 50 []).1 = [c6fA] ∧
    (capture c6envA 50 []).2 = some c6fA ∧
    (capture c6envB 50 (capture c6envA 50 []).1).1 = [c6fA, c6fB] ∧
    (capture c6envB 50 (capture c6envA 50 []).1).2.map Img.height = some 50 ∧
    c6fB.height = 30 :=
  ⟨rfl, rfl, rfl, rfl, rfl⟩

/-- Frames 1 and 2 have different fingerprints (their buffers already
differ at byte 0: 0 versus 80). -/
theorem c2_fp_ne :
    ¬ (some (fingerprint (c2frames 0)) = some (fingerprint (c2frames 1))) := by
  intro h
  rw [Option.some.injEq] at h
  have h2 : (fingerprint (c2frames 0)).head? = (fingerprint (c2frames 1)).head? := by
    rw [h]
  have e0 : (fingerprint (c2frames 0)).head? = some 0 := rfl
  have e1 : (fingerprint (c2frames 1)).head? = some 80 := rfl
  rw [e0, e1] at h2
  exact absurd h2 (by decide)

/-- Running the capture loop on the scenario stores exactly the two
distinct frames: frame 3's fingerprint equals frame 2's, so the loop
stops at iteration 2 and discards the duplicate. -/
theorem c2_store : captureLoop c2frames 50 0 none [] = [c2f1, c2f2] := by
  rw [show (50 : Nat) = 49 + 1 from rfl, captureLoop_succ,
    if_neg (by simp)]
  rw [show (49 : Nat) = 48 + 1 from rfl, captureLoop_succ,
    if_neg c2_fp_ne]
  rw [show (48 : Nat) = 47 + 1 from rfl, captureLoop_succ,
    if_pos (show some (fingerprint (c2frames (0 + 1)))
      = some (fingerprint (c2frames (0 + 1 + 1))) from rfl)]
  rfl

/-- The Overlap Locator finds no overlap on the scenario pair: the true
duplicated region is 220 rows tall, but the scan stops below
min(300, 300) // 2 = 150, and no candidate offset in [50, 140] aligns
matching strips. -/
theorem c2_overlap : find_overlap c2f1 c2f2 = 0 := by decide

/-- Claim C2 counterexample: on the scenario fixture the Overlap Locator
does not return 80 (it returns 0) and the stitched output does not have
height 520 (it has height 300 + 300 = 600). -/
theorem claim_C2_counterexample :
    find_overlap c2f1 c2f2 ≠ 80 ∧
      (stitch_images [c2f1, c2f2]).height ≠ 520 ∧
      find_overlap c2f1 c2f2 = 0 ∧
      (stitch_images [c2f1, c2f2]).height = 600 := by
  have h2 : (stitch_images [c2f1, c2f2]).height = 600 := by
    rw [stitch_images_height]
    simp only [List.zip_cons_cons, List.zip_nil_right, List.map_cons,
      List.map_nil, List.sum_cons, List.sum_nil, c2_overlap]
    rfl
  refine ⟨?_, ?_, c2_overlap, h2⟩
  · rw [c2_overlap]; decide
  · rw [h2]; decide

/-- Claim C2 amended: on the scenario fixture the capture loop ends with
exactly the 2 distinct frames stored, the Overlap Locator returns 0 for
the pair (frame 1, frame 2) — the 220-row true overlap lies beyond its
min(300, 300) // 2 = 150 scan bound — and the stitched output therefore
has the full concatenated height 300 + 300 = 600. -/
theorem claim_C2_amended :
    (capture c2env 50 []).1 = [c2f1, c2f2] ∧
      find_overlap c2f1 c2f2 = 0 ∧
      (capture c2env 50 []).2 = some (stitch_images [c2f1, c2f2]) ∧
      (stitch_images [c2f1, c2f2]).height = 600 := by
  have hloop : captureLoop (fun k => c2env.screen (c2env.rects 0) k)
      50 0 none [] = [c2f1, c2f2] := c2_store
  have hcap := capture_eq_of_loop c2env 50 [] [c2f1, c2f2] hloop
  have h2 : (stitch_images [c2f1, c2f2]).height = 600 := by
    rw [stitch_images_height]
    simp only [List.zip_cons_cons, List.zip_nil_right, List.map_cons,
      List.map_nil, List.sum_cons, List.sum_nil, c2_overlap]
    rfl
  refine ⟨?_, c2_overlap, ?_, h2⟩
  · rw [hcap]; rfl
  · rw [hcap]; rfl
